import Mathlib

/-!
Shallow embedding of the chunked world generator of this repository: the
road-grid classifier `getRoadAt`, the seeded PRNG `seededRand`, the chunk
generator `generateChunk`, the per-tick vehicle AI step, and the chunk
cache / streaming window (`getChunk` / `updateChunks`).

Modelling conventions:
* JavaScript numbers are modelled as exact rationals (`ℚ`).
* `Math.sin` / `Math.cos` are modelled abstractly by a `JsMath` structure;
  properties that need the genuine bound `|sin t| ≤ 1` take it as a
  hypothesis.
* The JavaScript `%` operator is remainder with the sign of the dividend
  (`jsMod`), `Math.floor` is `Int.floor`, `Math.round q` is `⌊q + 1/2⌋`.
* The PRNG closure returned by `seededRand` is modelled by explicit state
  passing: `seededRand` gives the initial captured state and `nextRand`
  is one invocation of the closure, returning (output, new state).
* The `Map` keyed by the string `hash(x, z) = "x,z"` is modelled as an
  association list keyed by the integer pair `(x, z)`; the string key is
  injective on integer pairs, so this is faithful.
-/

/-- Model of the transcendental functions used by the source
(`Math.sin`, `Math.cos`). -/
structure JsMath where
  sin : ℚ → ℚ
  cos : ℚ → ℚ

-- ===== CONFIG constants from the source =====

def CHUNK_SIZE : ℚ := 20

def VIEW_RADIUS : ℤ := 2

def WORLD_LIMIT : ℚ := 8

def MAIN_AVENUE_SPACING : ℚ := 60

def STREET_SPACING : ℚ := 20

def ROAD_WIDTH_MAIN : ℚ := 3.2

def ROAD_WIDTH_STREET : ℚ := 2.0

/-- Keys of the `DIALOGUE` object, in source order (`NPC_TYPES`). -/
def NPC_TYPES : List String := ["dreamer", "cynic", "worker", "wanderer", "optimist"]

-- ===== JavaScript numeric primitives =====

/-- Truncation toward zero, as used by the JavaScript `%` operator. -/
def jsTrunc (q : ℚ) : ℤ := if 0 ≤ q then ⌊q⌋ else -⌊-q⌋

/-- JavaScript remainder `a % n`: the result carries the sign of the
dividend `a` (divisors in this code are positive). -/
def jsMod (a n : ℚ) : ℚ := a - n * (jsTrunc (a / n) : ℚ)

/-- JavaScript `Math.round` (round half toward positive infinity). -/
def jsRound (q : ℚ) : ℤ := ⌊q + 1 / 2⌋

-- ===== UTILS =====

/-- Source `hash(x, z)` produces the string "x,z"; on integer pairs that
string is injective, so the key is modelled as the pair itself. -/
def hashKey (x z : ℤ) : ℤ × ℤ := (x, z)

/-- Initial captured state of the closure returned by
`seededRand(seed)`: `let s = seed * 99991`. -/
def seededRand (seed : ℚ) : ℚ := seed * 99991

/-- One invocation of the closure returned by `seededRand`:
`s = Math.sin(s) * 10000; return s - Math.floor(s)`.
Returns (output, updated state). -/
def nextRand (M : JsMath) (s : ℚ) : ℚ × ℚ :=
  let s2 := M.sin s * 10000
  (s2 - (⌊s2⌋ : ℚ), s2)

-- ===== GLOBAL ROAD GRID =====

/-- Source `roadWarp(x, z)`. -/
def roadWarp (M : JsMath) (x z : ℚ) : ℚ :=
  M.sin (x * 0.03) * 1.2 + M.cos (z * 0.04) * 1.0

/-- Result record of `getRoadAt` (`type` is `null` off-road). -/
structure RoadInfo where
  isRoad : Bool
  type : Option String
  dir : String
deriving DecidableEq, Repr

/-- Source `getRoadAt(x, z)`. -/
def getRoadAt (M : JsMath) (x z : ℚ) : RoadInfo :=
  let wx := x + roadWarp M x z
  let wz := z + roadWarp M z x
  let onMainX : Bool := decide (|jsMod wx MAIN_AVENUE_SPACING| < ROAD_WIDTH_MAIN)
  let onMainZ : Bool := decide (|jsMod wz MAIN_AVENUE_SPACING| < ROAD_WIDTH_MAIN)
  let onStreetX : Bool := decide (|jsMod wx STREET_SPACING| < ROAD_WIDTH_STREET)
  let onStreetZ : Bool := decide (|jsMod wz STREET_SPACING| < ROAD_WIDTH_STREET)
  let isMain := onMainX || onMainZ
  let isStreet := !isMain && (onStreetX || onStreetZ)
  { isRoad := isMain || isStreet
    type := if isMain then some "main" else if isStreet then some "street" else none
    dir := if onMainX || onStreetX then "vertical" else "horizontal" }

-- ===== CHUNK DATA =====

structure BuildingData where
  x : ℚ
  z : ℚ
  w : ℚ
  d : ℚ
  h : ℚ
deriving DecidableEq, Repr

structure NpcData where
  pos : ℚ × ℚ
  type : String
deriving DecidableEq, Repr

structure RoadSample where
  x : ℚ
  z : ℚ
  dir : String
  type : Option String
deriving DecidableEq, Repr

structure VehicleData where
  x : ℚ
  z : ℚ
  dir : String
  speed : ℚ
  type : String
deriving DecidableEq, Repr

structure ChunkData where
  cx : ℤ
  cz : ℤ
  buildings : List BuildingData
  npcs : List NpcData
  roads : List RoadSample
  vehicles : List VehicleData
deriving DecidableEq, Repr

-- ===== CHUNK GENERATOR =====

/-- Sample offsets of the road-sampling loop:
`for (x = -half; x <= half; x += step)` with `half = 10`, `step = 4`
visits exactly -10, -6, -2, 2, 6, 10. -/
def gridOffsets : List ℚ := [-10, -6, -2, 2, 6, 10]

/-- The road-sampling double loop of `generateChunk` (outer `x`, inner `z`);
consumes no randomness. -/
def roadSamples (M : JsMath) (cx cz : ℤ) : List RoadSample :=
  gridOffsets.flatMap (fun x =>
    gridOffsets.filterMap (fun z =>
      let wx := (cx : ℚ) * CHUNK_SIZE + x
      let wz := (cz : ℚ) * CHUNK_SIZE + z
      let r := getRoadAt M wx wz
      if r.isRoad then some ⟨wx, wz, r.dir, r.type⟩ else none))

/-- The building rejection-sampling `while` loop of `generateChunk`.
`fuel` is the number of attempts still allowed (the source caps
`attempts < 200`, so the loop starts with fuel 200). -/
def buildLoop (M : JsMath) (cx cz : ℤ) (bCount : ℕ) :
    ℕ → ℚ → List BuildingData → List BuildingData × ℚ
  | 0, s, acc => (acc, s)
  | fuel + 1, s, acc =>
    if acc.length < bCount then
      let r1 := nextRand M s
      let x := (r1.1 - 0.5) * CHUNK_SIZE + (cx : ℚ) * CHUNK_SIZE
      let r2 := nextRand M r1.2
      let z := (r2.1 - 0.5) * CHUNK_SIZE + (cz : ℚ) * CHUNK_SIZE
      if (getRoadAt M x z).isRoad then
        buildLoop M cx cz bCount fuel r2.2 acc
      else
        let r3 := nextRand M r2.2
        let r4 := nextRand M r3.2
        let r5 := nextRand M r4.2
        buildLoop M cx cz bCount fuel r5.2
          (acc ++ [⟨x, z, 2 + r3.1 * 1.5, 2 + r4.1 * 1.5, 3 + r5.1 * 6⟩])
    else (acc, s)

/-- The NPC "snap off the road" adjustment inside the NPC loop:
`if (r.isRoad) { px += vertical ? 3 : 0; pz += horizontal ? 3 : 0 }`. -/
def npcAdjust (M : JsMath) (px pz : ℚ) : ℚ × ℚ :=
  let r := getRoadAt M px pz
  if r.isRoad then
    (px + (if r.dir = "vertical" then 3 else 0),
     pz + (if r.dir = "horizontal" then 3 else 0))
  else (px, pz)

/-- The NPC placement `for` loop of `generateChunk` (`nCount` iterations). -/
def npcLoop (M : JsMath) (cx cz : ℤ) : ℕ → ℚ → List NpcData × ℚ
  | 0, s => ([], s)
  | n + 1, s =>
    let r1 := nextRand M s
    let px := (r1.1 - 0.5) * CHUNK_SIZE + (cx : ℚ) * CHUNK_SIZE
    let r2 := nextRand M r1.2
    let pz := (r2.1 - 0.5) * CHUNK_SIZE + (cz : ℚ) * CHUNK_SIZE
    let r3 := nextRand M r2.2
    let ty := NPC_TYPES.getD (⌊r3.1 * (NPC_TYPES.length : ℚ)⌋).toNat "dreamer"
    let rest := npcLoop M cx cz n r3.2
    (⟨npcAdjust M px pz, ty⟩ :: rest.1, rest.2)

/-- The vehicle placement `for` loop of `generateChunk` (`vCount`
iterations, discarding candidates not on a main road).  The second
`type` draw is only made when the first is ≤ 0.6, mirroring the lazy
conditional in the source. -/
def vehLoop (M : JsMath) (cx cz : ℤ) : ℕ → ℚ → List VehicleData × ℚ
  | 0, s => ([], s)
  | n + 1, s =>
    let r1 := nextRand M s
    let r2 := nextRand M r1.2
    let axisX := r2.1 > 0.5
    let base : ℚ :=
      if axisX then
        (jsRound ((cx : ℚ) * CHUNK_SIZE / MAIN_AVENUE_SPACING) : ℚ) * MAIN_AVENUE_SPACING
      else
        (jsRound ((cz : ℚ) * CHUNK_SIZE / MAIN_AVENUE_SPACING) : ℚ) * MAIN_AVENUE_SPACING
    let x := if axisX then base else (cx : ℚ) * CHUNK_SIZE - CHUNK_SIZE / 2 + r1.1 * CHUNK_SIZE
    let z := if axisX then (cz : ℚ) * CHUNK_SIZE - CHUNK_SIZE / 2 + r1.1 * CHUNK_SIZE else base
    let r := getRoadAt M x z
    if r.isRoad = false ∨ r.type ≠ some "main" then
      vehLoop M cx cz n r2.2
    else
      let r3 := nextRand M r2.2
      let r4 := nextRand M r3.2
      let tyst : String × ℚ :=
        if r4.1 > 0.6 then ("hover", r4.2)
        else
          let r5 := nextRand M r4.2
          (if r5.1 > 0.3 then "wheel" else "surreal", r5.2)
      let rest := vehLoop M cx cz n tyst.2
      (⟨x, z, r.dir, 0.03 + r3.1 * 0.02, tyst.1⟩ :: rest.1, rest.2)

/-- Body of `generateChunk(cx, cz)` with the initial PRNG state made
explicit (the source creates it with `seededRand(cx*10007 + cz*30011)`). -/
def generateChunkWith (M : JsMath) (cx cz : ℤ) (s0 : ℚ) : ChunkData :=
  let r1 := nextRand M s0
  let bCount := (10 + ⌊r1.1 * 8⌋).toNat
  let bl := buildLoop M cx cz bCount 200 r1.2 []
  let r2 := nextRand M bl.2
  let nCount := (1 + ⌊r2.1 * 3⌋).toNat
  let nl := npcLoop M cx cz nCount r2.2
  let r3 := nextRand M nl.2
  let vCount := (⌊r3.1 * 2⌋).toNat
  let vl := vehLoop M cx cz vCount r3.2
  { cx := cx, cz := cz, buildings := bl.1, npcs := nl.1,
    roads := roadSamples M cx cz, vehicles := vl.1 }

/-- The seed of the per-chunk PRNG: `cx * 10007 + cz * 30011`. -/
def seedOf (cx cz : ℤ) : ℚ := (cx : ℚ) * 10007 + (cz : ℚ) * 30011

/-- Source `generateChunk(cx, cz)`. -/
def generateChunk (M : JsMath) (cx cz : ℤ) : ChunkData :=
  generateChunkWith M cx cz (seededRand (seedOf cx cz))

-- ===== VEHICLE PER-TICK AI STEP =====

/-- One `useFrame` AI movement step of a non-driven vehicle: advance on
the current axis, wrap at the world limit, and if the new position is on
a road, adopt the road's axis and snap the cross coordinate to the
street grid. -/
def vehicleStep (M : JsMath) (v : VehicleData) : VehicleData :=
  let v1 := if v.dir = "vertical" then { v with z := v.z + v.speed }
            else { v with x := v.x + v.speed }
  let limit : ℚ := WORLD_LIMIT * CHUNK_SIZE
  let v2 := if v1.x > limit then { v1 with x := -limit } else v1
  let v3 := if v2.z > limit then { v2 with z := -limit } else v2
  let r := getRoadAt M v3.x v3.z
  if r.isRoad then
    if r.dir = "vertical" then
      { v3 with dir := r.dir, x := (jsRound (v3.x / STREET_SPACING) : ℚ) * STREET_SPACING }
    else
      { v3 with dir := r.dir, z := (jsRound (v3.z / STREET_SPACING) : ℚ) * STREET_SPACING }
  else v3

-- ===== CHUNK CACHE / STREAMING WINDOW =====

/-- The chunk cache (`chunksRef`): a `Map` from chunk key to chunk. -/
abbrev Cache : Type := List ((ℤ × ℤ) × ChunkData)

/-- Whether a key is present in the cache (`Map.has`). -/
def cacheHas (c : Cache) (k : ℤ × ℤ) : Bool :=
  List.any c (fun e => decide (e.1 = k))

/-- Source `getChunk(cx, cz)`: fetch the cached chunk at the key, or
generate and insert it if absent.  Returns (updated cache, chunk). -/
def getChunk (M : JsMath) (c : Cache) (k : ℤ × ℤ) : Cache × ChunkData :=
  match List.find? (fun e => decide (e.1 = k)) c with
  | some e => (c, e.2)
  | none => (c ++ [(k, generateChunk M k.1 k.2)], generateChunk M k.1 k.2)

/-- Offsets `-VIEW_RADIUS .. VIEW_RADIUS` of the streaming loop
(`for (x = -VIEW_RADIUS; x <= VIEW_RADIUS; x++)` with `VIEW_RADIUS = 2`). -/
def viewOffsets : List ℤ := [-2, -1, 0, 1, 2]

/-- Keys retained by `updateChunks` around the center key. -/
def keepKeys (cx cz : ℤ) : List (ℤ × ℤ) :=
  viewOffsets.flatMap (fun dx => viewOffsets.map (fun dz => hashKey (cx + dx) (cz + dz)))

/-- Source `updateChunks()`: load every key within `VIEW_RADIUS` of the
player chunk, then evict every cached entry outside that window. -/
def updateChunks (M : JsMath) (c : Cache) (px pz : ℚ) : Cache :=
  let cx := ⌊px / CHUNK_SIZE⌋
  let cz := ⌊pz / CHUNK_SIZE⌋
  let loaded := (keepKeys cx cz).foldl (fun acc k => (getChunk M acc k).1) c
  List.filter (fun e => (keepKeys cx cz).contains e.1) loaded

-- ===== CONCRETE MODELS OF Math.sin / Math.cos =====

/-- The everywhere-zero model (all trig values 0, certainly within
the `Math.sin` / `Math.cos` range [-1, 1]). -/
def M0 : JsMath := ⟨fun _ => 0, fun _ => 0⟩

/-- A concrete sine model (all values in [-1, 1]).  On the PRNG state
chain of chunk (0, 0) — whose states under this table are the naturals
0..51 followed by a few tabulated fractional states — it drives
`generateChunk` so that one NPC is drawn at the on-road point (0, 0)
and one vehicle candidate lands on the central main avenue. -/
def tableA : ℚ → ℚ := fun q =>
  if q = 52 then 53.5 / 10000
  else if q = 53.5 then 54.5 / 10000
  else if q = 54.5 then 55 / 10000
  else if q = 55 then 56.5 / 10000
  else if q = 56.5 then 57 / 10000
  else if q = 57 then 58.75 / 10000
  else if q = 58.75 then 59 / 10000
  else if 0 ≤ q ∧ q ≤ 200 ∧ ((⌊q⌋ : ℚ) = q) then (q + 1) / 10000
  else 0

def mathA : JsMath := ⟨tableA, fun _ => 0⟩

/-- A concrete sine model (all values in [-1, 1]) driving chunk (0, 8)
so that a vehicle spawns at (5, 180) on the main avenue z = 180 heading
horizontal; its first tick then wraps z to -160, a street-grid line. -/
def tableC : ℚ → ℚ := fun q =>
  if 10000 < q then 1 / 10000
  else if q = 55 then 56.5 / 10000
  else if q = 56.5 then 57.75 / 10000
  else if q = 57.75 then 58 / 10000
  else if 0 ≤ q ∧ q ≤ 200 ∧ ((⌊q⌋ : ℚ) = q) then (q + 1) / 10000
  else 0

def mathC : JsMath := ⟨tableC, fun _ => 0⟩

-- ===== BOUNDS FOR THE CONCRETE MODELS =====

theorem tableA_abs_le : ∀ q, |tableA q| ≤ 1 := by
  intro q
  unfold tableA
  split_ifs with h1 h2 h3 h4 h5 h6 h7 h8
  · norm_num [abs_le]
  · norm_num [abs_le]
  · norm_num [abs_le]
  · norm_num [abs_le]
  · norm_num [abs_le]
  · norm_num [abs_le]
  · norm_num [abs_le]
  · obtain ⟨hq0, hq200, hfl⟩ := h8
    rw [abs_le]
    constructor <;> linarith
  · norm_num

theorem tableC_abs_le : ∀ q, |tableC q| ≤ 1 := by
  intro q
  unfold tableC
  split_ifs with h1 h2 h3 h4 h5
  · norm_num [abs_le]
  · norm_num [abs_le]
  · norm_num [abs_le]
  · norm_num [abs_le]
  · obtain ⟨hq0, hq200, hfl⟩ := h5
    rw [abs_le]
    constructor <;> linarith
  · norm_num

theorem zeroFun_abs_le : ∀ q : ℚ, |(fun _ : ℚ => (0 : ℚ)) q| ≤ 1 := by
  intro q
  norm_num

-- ===== CONCRETE CHUNK EVALUATIONS (phase by phase) =====

set_option maxRecDepth 8000 in
theorem mathA_chunk :
    generateChunk mathA 0 0 =
      ⟨0, 0, (buildLoop mathA 0 0 10 200 1 []).1, (npcLoop mathA 0 0 1 52).1,
        roadSamples mathA 0 0, (vehLoop mathA 0 0 1 (113 / 2)).1⟩ := by
  have e1 : nextRand mathA (seededRand (seedOf 0 0)) = (0, 1) := by
    with_unfolding_all decide
  have e2 : (buildLoop mathA 0 0 10 200 1 []).2 = 51 := by with_unfolding_all decide
  have e3 : nextRand mathA 51 = (0, 52) := by with_unfolding_all decide
  have e4 : (npcLoop mathA 0 0 1 52).2 = 55 := by with_unfolding_all decide
  have e5 : nextRand mathA 55 = (1 / 2, 113 / 2) := by with_unfolding_all decide
  have f1 : ((10 : ℤ) + ⌊(0 : ℚ) * 8⌋).toNat = 10 := by with_unfolding_all decide
  have f2 : ((1 : ℤ) + ⌊(0 : ℚ) * 3⌋).toNat = 1 := by with_unfolding_all decide
  have f3 : (⌊(1 / 2 : ℚ) * 2⌋).toNat = 1 := by with_unfolding_all decide
  show generateChunkWith mathA 0 0 (seededRand (seedOf 0 0)) = _
  simp only [generateChunkWith, e1, f1, e2, e3, f2, e4, e5, f3]

set_option maxRecDepth 8000 in
theorem mathC_chunk :
    generateChunk mathC 0 8 =
      ⟨0, 8, (buildLoop mathC 0 8 10 200 1 []).1, (npcLoop mathC 0 8 1 52).1,
        roadSamples mathC 0 8, (vehLoop mathC 0 8 1 (113 / 2)).1⟩ := by
  have hsin : mathC.sin 24006639208 = 1 / 10000 := by
    show tableC 24006639208 = 1 / 10000
    unfold tableC
    rw [if_pos (by norm_num : (10000 : ℚ) < 24006639208)]
  have e1 : nextRand mathC (seededRand (seedOf 0 8)) = (0, 1) := by
    rw [show seededRand (seedOf 0 8) = 24006639208 by norm_num [seededRand, seedOf]]
    rw [show nextRand mathC 24006639208 =
          (mathC.sin 24006639208 * 10000 - ((⌊mathC.sin 24006639208 * 10000⌋ : ℤ) : ℚ),
            mathC.sin 24006639208 * 10000) from rfl]
    rw [hsin]
    norm_num [Int.floor_one]
  have e2 : (buildLoop mathC 0 8 10 200 1 []).2 = 51 := by with_unfolding_all decide
  have e3 : nextRand mathC 51 = (0, 52) := by with_unfolding_all decide
  have e4 : (npcLoop mathC 0 8 1 52).2 = 55 := by with_unfolding_all decide
  have e5 : nextRand mathC 55 = (1 / 2, 113 / 2) := by with_unfolding_all decide
  have f1 : ((10 : ℤ) + ⌊(0 : ℚ) * 8⌋).toNat = 10 := by with_unfolding_all decide
  have f2 : ((1 : ℤ) + ⌊(0 : ℚ) * 3⌋).toNat = 1 := by with_unfolding_all decide
  have f3 : (⌊(1 / 2 : ℚ) * 2⌋).toNat = 1 := by with_unfolding_all decide
  show generateChunkWith mathC 0 8 (seededRand (seedOf 0 8)) = _
  simp only [generateChunkWith, e1, f1, e2, e3, f2, e4, e5, f3]

-- ===== GENERAL HELPER LEMMAS =====

/-- Every output of the PRNG closure is a fractional part, hence in [0, 1). -/
theorem nextRand_range (M : JsMath) (s : ℚ) :
    0 ≤ (nextRand M s).1 ∧ (nextRand M s).1 < 1 := by
  have h : (nextRand M s).1 = Int.fract (M.sin s * 10000) := rfl
  rw [h]
  exact ⟨Int.fract_nonneg _, Int.fract_lt_one _⟩

theorem jsTrunc_eq_zero (q : ℚ) (h1 : -1 < q) (h2 : q < 1) : jsTrunc q = 0 := by
  unfold jsTrunc
  split_ifs with h
  · exact Int.floor_eq_zero_iff.2 ⟨h, h2⟩
  · push_neg at h
    have : ⌊-q⌋ = 0 := Int.floor_eq_zero_iff.2 ⟨by linarith, by linarith⟩
    omega

/-- When the dividend is smaller than the (positive) divisor in absolute
value, the JavaScript remainder is the dividend itself. -/
theorem jsMod_of_abs_lt (a n : ℚ) (hn : 0 < n) (h : |a| < n) : jsMod a n = a := by
  unfold jsMod
  rw [abs_lt] at h
  have h1 : (-1 : ℚ) < a / n := by
    rw [lt_div_iff₀ hn]
    linarith
  have h2 : a / n < 1 := by
    rw [div_lt_one hn]
    exact h.2
  rw [jsTrunc_eq_zero _ h1 h2]
  push_cast
  ring

/-- With genuinely bounded sine and cosine, the road warp is at most 2.2
in absolute value (amplitudes 1.2 and 1.0). -/
theorem roadWarp_abs_le (M : JsMath) (hs : ∀ q, |M.sin q| ≤ 1) (hc : ∀ q, |M.cos q| ≤ 1)
    (x z : ℚ) : |roadWarp M x z| ≤ 2.2 := by
  unfold roadWarp
  have h1 := abs_le.1 (hs (x * 0.03))
  have h2 := abs_le.1 (hc (z * 0.04))
  rw [abs_le]
  constructor <;> nlinarith [h1.1, h1.2, h2.1, h2.2]

/-- If the x-test against the main-avenue spacing passes, `getRoadAt`
reports a main road running vertically. -/
theorem getRoadAt_of_onMainX (M : JsMath) (x z : ℚ)
    (h : |jsMod (x + roadWarp M x z) MAIN_AVENUE_SPACING| < ROAD_WIDTH_MAIN) :
    getRoadAt M x z = ⟨true, some "main", "vertical"⟩ := by
  simp only [getRoadAt]
  rw [decide_eq_true h]
  simp

/-- If either main-spacing test passes, `getRoadAt` classifies the point
as class "main". -/
theorem getRoadAt_type_of_main (M : JsMath) (x z : ℚ)
    (h : |jsMod (x + roadWarp M x z) MAIN_AVENUE_SPACING| < ROAD_WIDTH_MAIN ∨
         |jsMod (z + roadWarp M z x) MAIN_AVENUE_SPACING| < ROAD_WIDTH_MAIN) :
    (getRoadAt M x z).type = some "main" := by
  simp only [getRoadAt]
  rcases h with h | h
  · rw [decide_eq_true h]
    simp
  · rw [decide_eq_true h]
    simp

/-- Any point with x = 0 lies on the central main avenue, whatever the
(bounded) warp does: the warp keeps |wx| ≤ 2.2 < 3.2. -/
theorem getRoadAt_zero_main (M : JsMath) (hs : ∀ q, |M.sin q| ≤ 1)
    (hc : ∀ q, |M.cos q| ≤ 1) (z : ℚ) :
    getRoadAt M 0 z = ⟨true, some "main", "vertical"⟩ := by
  apply getRoadAt_of_onMainX
  have hw := roadWarp_abs_le M hs hc 0 z
  have h60 : |roadWarp M 0 z| < MAIN_AVENUE_SPACING := by
    apply lt_of_le_of_lt hw
    norm_num [MAIN_AVENUE_SPACING]
  rw [zero_add, jsMod_of_abs_lt _ _ (by norm_num [MAIN_AVENUE_SPACING]) h60]
  apply lt_of_le_of_lt hw
  norm_num [ROAD_WIDTH_MAIN]

/-- A vehicle heading vertical at x = 0 stays at x = 0 heading vertical
after one AI step (the wrap does not move x, the classification at x = 0
is a vertical main road, and snapping leaves x = 0 fixed). -/
theorem vehicleStep_vertical_zero (M : JsMath) (hs : ∀ q, |M.sin q| ≤ 1)
    (hc : ∀ q, |M.cos q| ≤ 1) (v : VehicleData)
    (hdir : v.dir = "vertical") (hx : v.x = 0) :
    (vehicleStep M v).dir = "vertical" ∧ (vehicleStep M v).x = 0 := by
  obtain ⟨vx, vz, vdir, vsp, vty⟩ := v
  dsimp only at hdir hx
  subst hdir
  subst hx
  have hsnap : ((jsRound ((0 : ℚ) / STREET_SPACING) : ℤ) : ℚ) * STREET_SPACING = 0 := by
    norm_num [jsRound, STREET_SPACING]
  have hw : ¬((0 : ℚ) > WORLD_LIMIT * CHUNK_SIZE) := by norm_num [WORLD_LIMIT, CHUNK_SIZE]
  have hr0 : jsRound (0 : ℚ) = 0 := by
    rw [jsRound, zero_add]
    exact Int.floor_eq_zero_iff.2 (by constructor <;> norm_num)
  by_cases hz : vz + vsp > WORLD_LIMIT * CHUNK_SIZE
  · simp [vehicleStep, hw, hz, getRoadAt_zero_main M hs hc, hsnap, hr0]
  · simp [vehicleStep, hw, hz, getRoadAt_zero_main M hs hc, hsnap, hr0]

/-- Every building the rejection-sampling loop accepts was checked to be
off-road (the `continue` branch discards on-road draws). -/
theorem buildLoop_off_road (M : JsMath) (cx cz : ℤ) (bc : ℕ) :
    ∀ (fuel : ℕ) (s : ℚ) (acc : List BuildingData),
      (∀ b ∈ acc, (getRoadAt M b.x b.z).isRoad = false) →
      ∀ b ∈ (buildLoop M cx cz bc fuel s acc).1, (getRoadAt M b.x b.z).isRoad = false := by
  intro fuel
  induction fuel with
  | zero =>
    intro s acc hacc b hb
    exact hacc b hb
  | succ k ih =>
    intro s acc hacc b hb
    simp only [buildLoop] at hb
    split at hb
    · split at hb
      · exact ih _ _ hacc b hb
      · rename_i hroad
        refine ih _ _ ?_ b hb
        intro b2 hb2
        rcases List.mem_append.1 hb2 with h | h
        · exact hacc b2 h
        · rw [List.mem_singleton] at h
          subst h
          simpa using hroad
    · exact hacc b hb

/-- The loop never accepts more buildings than requested. -/
theorem buildLoop_length_le (M : JsMath) (cx cz : ℤ) (bc : ℕ) :
    ∀ (fuel : ℕ) (s : ℚ) (acc : List BuildingData),
      acc.length ≤ bc → (buildLoop M cx cz bc fuel s acc).1.length ≤ bc := by
  intro fuel
  induction fuel with
  | zero =>
    intro s acc hacc
    exact hacc
  | succ k ih =>
    intro s acc hacc
    simp only [buildLoop]
    split
    · rename_i hlen
      split
      · exact ih _ _ hacc
      · apply ih
        simp only [List.length_append, List.length_singleton]
        omega
    · exact hacc

/-- Every building the loop accepts has both coordinates inside the
half-open chunk footprint around (cx·20, cz·20). -/
theorem buildLoop_in_chunk (M : JsMath) (cx cz : ℤ) (bc : ℕ) :
    ∀ (fuel : ℕ) (s : ℚ) (acc : List BuildingData),
      (∀ b ∈ acc,
        (cx : ℚ) * CHUNK_SIZE - CHUNK_SIZE / 2 ≤ b.x ∧ b.x ≤ (cx : ℚ) * CHUNK_SIZE + CHUNK_SIZE / 2 ∧
        (cz : ℚ) * CHUNK_SIZE - CHUNK_SIZE / 2 ≤ b.z ∧ b.z ≤ (cz : ℚ) * CHUNK_SIZE + CHUNK_SIZE / 2) →
      ∀ b ∈ (buildLoop M cx cz bc fuel s acc).1,
        (cx : ℚ) * CHUNK_SIZE - CHUNK_SIZE / 2 ≤ b.x ∧ b.x ≤ (cx : ℚ) * CHUNK_SIZE + CHUNK_SIZE / 2 ∧
        (cz : ℚ) * CHUNK_SIZE - CHUNK_SIZE / 2 ≤ b.z ∧ b.z ≤ (cz : ℚ) * CHUNK_SIZE + CHUNK_SIZE / 2 := by
  intro fuel
  induction fuel with
  | zero =>
    intro s acc hacc b hb
    exact hacc b hb
  | succ k ih =>
    intro s acc hacc b hb
    simp only [buildLoop] at hb
    split at hb
    · split at hb
      · exact ih _ _ hacc b hb
      · refine ih _ _ ?_ b hb
        intro b2 hb2
        rcases List.mem_append.1 hb2 with h | h
        · exact hacc b2 h
        · rw [List.mem_singleton] at h
          subst h
          have hx := nextRand_range M s
          have hz := nextRand_range M (nextRand M s).2
          refine ⟨?_, ?_, ?_, ?_⟩ <;>
            · dsimp only
              rw [CHUNK_SIZE] at *
              nlinarith [hx.1, hx.2, hz.1, hz.2]
    · exact hacc b hb

/-- Every NPC the placement loop emits carries a stored position equal to
`npcAdjust` of its drawn position (the draw, then the conditional
sidewalk nudge). -/
theorem npcLoop_adjust (M : JsMath) (cx cz : ℤ) :
    ∀ (n : ℕ) (s : ℚ) (npc : NpcData), npc ∈ (npcLoop M cx cz n s).1 →
      ∃ px pz, npc.pos = npcAdjust M px pz := by
  intro n
  induction n with
  | zero =>
    intro s npc h
    simp [npcLoop] at h
  | succ k ih =>
    intro s npc h
    simp only [npcLoop] at h
    rcases List.mem_cons.1 h with h1 | h1
    · subst h1
      exact ⟨_, _, rfl⟩
    · exact ih _ npc h1

/-- Every vehicle the placement loop emits sits at a position whose
classification is an on-road main class (other candidates are
discarded), and its direction is the classification direction. -/
theorem vehLoop_main (M : JsMath) (cx cz : ℤ) :
    ∀ (n : ℕ) (s : ℚ) (v : VehicleData), v ∈ (vehLoop M cx cz n s).1 →
      (getRoadAt M v.x v.z).isRoad = true ∧ (getRoadAt M v.x v.z).type = some "main" ∧
      v.dir = (getRoadAt M v.x v.z).dir := by
  intro n
  induction n with
  | zero =>
    intro s v h
    simp [vehLoop] at h
  | succ k ih =>
    intro s v h
    simp only [vehLoop] at h
    split at h
    · split at h
      · exact ih _ v h
      · rename_i hkeep
        push_neg at hkeep
        dsimp only at h
        rcases List.mem_cons.1 h with h1 | h1
        · subst h1
          refine ⟨?_, hkeep.2, rfl⟩
          simpa using hkeep.1
        · exact ih _ v h1
    · split at h
      · exact ih _ v h
      · rename_i hkeep
        push_neg at hkeep
        dsimp only at h
        rcases List.mem_cons.1 h with h1 | h1
        · subst h1
          refine ⟨?_, hkeep.2, rfl⟩
          simpa using hkeep.1
        · exact ih _ v h1

/-- The building list of a generated chunk is an output of `buildLoop`
with fuel 200, empty accumulator, and a requested count of at most 17. -/
theorem generateChunk_buildings_ex (M : JsMath) (cx cz : ℤ) :
    ∃ bc s, bc ≤ 17 ∧ (generateChunk M cx cz).buildings = (buildLoop M cx cz bc 200 s []).1 := by
  refine ⟨_, _, ?_, rfl⟩
  have h := nextRand_range M (seededRand (seedOf cx cz))
  have h8 : ⌊(nextRand M (seededRand (seedOf cx cz))).1 * 8⌋ < 8 := by
    apply Int.floor_lt.2
    push_cast
    nlinarith [h.1, h.2]
  have h0 : 0 ≤ ⌊(nextRand M (seededRand (seedOf cx cz))).1 * 8⌋ :=
    Int.floor_nonneg.2 (by nlinarith [h.1])
  omega

/-- The NPC list of a generated chunk is an output of `npcLoop`. -/
theorem generateChunk_npcs_ex (M : JsMath) (cx cz : ℤ) :
    ∃ n s, (generateChunk M cx cz).npcs = (npcLoop M cx cz n s).1 :=
  ⟨_, _, rfl⟩

/-- The vehicle list of a generated chunk is an output of `vehLoop`. -/
theorem generateChunk_vehicles_ex (M : JsMath) (cx cz : ℤ) :
    ∃ n s, (generateChunk M cx cz).vehicles = (vehLoop M cx cz n s).1 :=
  ⟨_, _, rfl⟩

/-- The road-sample list of a generated chunk is `roadSamples`. -/
theorem generateChunk_roads (M : JsMath) (cx cz : ℤ) :
    (generateChunk M cx cz).roads = roadSamples M cx cz := rfl

-- ===== CACHE LEMMAS =====

/-- `getChunk` leaves the cache's key set unchanged except for adding
the requested key. -/
theorem cacheHas_getChunk (M : JsMath) (c : Cache) (j k : ℤ × ℤ) :
    cacheHas (getChunk M c j).1 k = true ↔ (cacheHas c k = true ∨ k = j) := by
  rcases hf : List.find? (fun e => decide (e.1 = j)) c with _ | e <;>
    simp only [getChunk, hf]
  · unfold cacheHas
    rw [List.any_append]
    rw [Bool.or_eq_true]
    simp only [List.any_cons, List.any_nil, Bool.or_false, decide_eq_true_eq]
    constructor
    · rintro (h | h)
      · exact Or.inl h
      · exact Or.inr h.symm
    · rintro (h | h)
      · exact Or.inl h
      · exact Or.inr h.symm
  · constructor
    · exact Or.inl
    · rintro (hc | rfl)
      · exact hc
      · unfold cacheHas
        rw [List.any_eq_true]
        refine ⟨e, List.mem_of_find?_eq_some hf, ?_⟩
        simpa using List.find?_some hf

/-- After folding `getChunk` over a key list, a key is present iff it was
present before or it is in the list. -/
theorem cacheHas_foldl (M : JsMath) :
    ∀ (ks : List (ℤ × ℤ)) (c : Cache) (k : ℤ × ℤ),
      cacheHas (ks.foldl (fun acc j => (getChunk M acc j).1) c) k = true ↔
        (cacheHas c k = true ∨ k ∈ ks) := by
  intro ks
  induction ks with
  | nil =>
    intro c k
    simp
  | cons j t ih =>
    intro c k
    rw [List.foldl_cons, ih, cacheHas_getChunk]
    rw [List.mem_cons]
    tauto

/-- Filtering by key retention: a key survives the filter iff it was
present and is in the retained list. -/
theorem cacheHas_filter (l : Cache) (ks : List (ℤ × ℤ)) (k : ℤ × ℤ) :
    cacheHas (List.filter (fun e => ks.contains e.1) l) k = true ↔
      (cacheHas l k = true ∧ k ∈ ks) := by
  unfold cacheHas
  simp only [List.any_eq_true, List.mem_filter, decide_eq_true_eq]
  constructor
  · rintro ⟨e, ⟨he, hc⟩, rfl⟩
    exact ⟨⟨e, he, rfl⟩, by simpa using hc⟩
  · rintro ⟨⟨e, he, rfl⟩, hk⟩
    exact ⟨e, ⟨he, by simpa using hk⟩, rfl⟩

/-- Membership in the retained key window is exactly Chebyshev distance
at most `VIEW_RADIUS` from the center key. -/
theorem mem_keepKeys (cx cz : ℤ) (k : ℤ × ℤ) :
    k ∈ keepKeys cx cz ↔ |k.1 - cx| ≤ VIEW_RADIUS ∧ |k.2 - cz| ≤ VIEW_RADIUS := by
  obtain ⟨k1, k2⟩ := k
  unfold VIEW_RADIUS
  simp only [keepKeys, viewOffsets, hashKey, List.mem_flatMap, List.mem_map,
    List.mem_cons, List.not_mem_nil, or_false]
  constructor
  · rintro ⟨dx, hdx, dz, hdz, heq⟩
    rw [Prod.mk.injEq] at heq
    have hdx2 : -2 ≤ dx ∧ dx ≤ 2 := by rcases hdx with rfl | rfl | rfl | rfl | rfl <;> omega
    have hdz2 : -2 ≤ dz ∧ dz ≤ 2 := by rcases hdz with rfl | rfl | rfl | rfl | rfl <;> omega
    constructor <;> (rw [abs_le]; omega)
  · rintro ⟨h1, h2⟩
    rw [abs_le] at h1 h2
    refine ⟨k1 - cx, by omega, k1 - cx + (k2 - cz) - (k1 - cx), by omega, ?_⟩
    rw [Prod.mk.injEq]
    constructor <;> ring

/-- Core streaming-window fact: after `updateChunks`, a key is cached
iff it lies within the Chebyshev window of the player's chunk key. -/
theorem updateChunks_has_iff (M : JsMath) (c : Cache) (px pz : ℚ) (k : ℤ × ℤ) :
    cacheHas (updateChunks M c px pz) k = true ↔
      (|k.1 - ⌊px / CHUNK_SIZE⌋| ≤ VIEW_RADIUS ∧ |k.2 - ⌊pz / CHUNK_SIZE⌋| ≤ VIEW_RADIUS) := by
  simp only [updateChunks]
  rw [cacheHas_filter, cacheHas_foldl, mem_keepKeys]
  tauto

/-- Requesting an absent key returns a freshly generated chunk. -/
theorem getChunk_snd_of_absent (M : JsMath) (c : Cache) (k : ℤ × ℤ)
    (h : cacheHas c k = false) : (getChunk M c k).2 = generateChunk M k.1 k.2 := by
  have hf : List.find? (fun e => decide (e.1 = k)) c = none := by
    rw [List.find?_eq_none]
    intro e he
    intro hdec
    have hk : cacheHas c k = true := by
      unfold cacheHas
      rw [List.any_eq_true]
      exact ⟨e, he, hdec⟩
    rw [h] at hk
    cases hk
  simp only [getChunk, hf]

theorem gridOffsets_bound : ∀ q ∈ gridOffsets, -10 ≤ q ∧ q ≤ 10 := by
  with_unfolding_all decide

-- ===== CLAIMS =====

/-- C1: Chunk generation is deterministic — all randomness of
`generateChunk(cx, cz)` comes from a generator seeded solely by
`cx*10007 + cz*30011`, so two calls whose PRNG state is freshly created
by `seededRand` from that seed return identical road-sample lists,
building lists, NPC spawn lists, and initial vehicle spawn lists. -/
theorem c1_determinism (M : JsMath) (cx cz : ℤ) (s1 s2 : ℚ)
    (h1 : s1 = seededRand (seedOf cx cz)) (h2 : s2 = seededRand (seedOf cx cz)) :
    (generateChunkWith M cx cz s1).roads = (generateChunkWith M cx cz s2).roads ∧
    (generateChunkWith M cx cz s1).buildings = (generateChunkWith M cx cz s2).buildings ∧
    (generateChunkWith M cx cz s1).npcs = (generateChunkWith M cx cz s2).npcs ∧
    (generateChunkWith M cx cz s1).vehicles = (generateChunkWith M cx cz s2).vehicles := by
  subst h1
  subst h2
  exact ⟨rfl, rfl, rfl, rfl⟩

theorem c1_determinism_witness :
    (generateChunkWith mathA 0 0 0).roads = (generateChunkWith mathA 0 0 0).roads ∧
    (generateChunkWith mathA 0 0 0).buildings = (generateChunkWith mathA 0 0 0).buildings ∧
    (generateChunkWith mathA 0 0 0).npcs = (generateChunkWith mathA 0 0 0).npcs ∧
    (generateChunkWith mathA 0 0 0).vehicles = (generateChunkWith mathA 0 0 0).vehicles :=
  c1_determinism mathA 0 0 0 0 (by norm_num [seededRand, seedOf])
    (by norm_num [seededRand, seedOf])

/-- C2: No building is placed on a road — every building returned by
`generateChunk(cx, cz)` has `getRoadAt(b.x, b.z).isRoad = false`,
because the rejection-sampling loop discards every on-road candidate. -/
theorem c2_no_building_on_road (M : JsMath) (cx cz : ℤ) (b : BuildingData)
    (hb : b ∈ (generateChunk M cx cz).buildings) :
    (getRoadAt M b.x b.z).isRoad = false := by
  obtain ⟨bc, s, hle, he⟩ := generateChunk_buildings_ex M cx cz
  rw [he] at hb
  exact buildLoop_off_road M cx cz bc 200 s [] (by intro b2 h2; cases h2) b hb

set_option maxHeartbeats 2000000 in
set_option maxRecDepth 8000 in
theorem c2_witness :
    ((⟨-10, -10, 2, 2, 3⟩ : BuildingData) ∈ (generateChunk mathA 0 0).buildings) ∧
      (getRoadAt mathA (-10) (-10)).isRoad = false := by
  have hmem : (⟨-10, -10, 2, 2, 3⟩ : BuildingData) ∈ (generateChunk mathA 0 0).buildings := by
    rw [mathA_chunk]
    with_unfolding_all decide
  exact ⟨hmem, c2_no_building_on_road mathA 0 0 ⟨-10, -10, 2, 2, 3⟩ hmem⟩

/-- C3: Streaming window correctness — after `updateChunks` with player
position (px, pz), a key is in the chunk cache iff it is within Chebyshev
distance `VIEW_RADIUS` of the center key
(⌊px / CHUNK_SIZE⌋, ⌊pz / CHUNK_SIZE⌋): no extra and no missing entries. -/
theorem c3_streaming_window (M : JsMath) (c : Cache) (px pz : ℚ) (k : ℤ × ℤ) :
    cacheHas (updateChunks M c px pz) k = true ↔
      (|k.1 - ⌊px / CHUNK_SIZE⌋| ≤ VIEW_RADIUS ∧ |k.2 - ⌊pz / CHUNK_SIZE⌋| ≤ VIEW_RADIUS) :=
  updateChunks_has_iff M c px pz k

set_option maxHeartbeats 2000000 in
set_option maxRecDepth 8000 in
/-- C4 counterexample: the claim that a spawned vehicle ends every tick
on an on-road, main-class position is false.  Under the bounded sine
model `mathC`, chunk (0, 8) spawns a vehicle at (5, 180) heading
horizontal; its first tick moves it to x = 5.03 and the world-limit wrap
resets z to -160, a point `getRoadAt` classifies as class "street". -/
theorem c4_counterexample :
    ¬ (∀ (M : JsMath), (∀ q, |M.sin q| ≤ 1) → (∀ q, |M.cos q| ≤ 1) →
        ∀ (cx cz : ℤ) (v : VehicleData), v ∈ (generateChunk M cx cz).vehicles →
          ∀ n : ℕ,
            (getRoadAt M (((vehicleStep M)^[n]) v).x (((vehicleStep M)^[n]) v).z).isRoad = true ∧
            (getRoadAt M (((vehicleStep M)^[n]) v).x (((vehicleStep M)^[n]) v).z).type =
              some "main") := by
  intro hclaim
  have hmem : (⟨5, 180, "horizontal", 3 / 100, "surreal"⟩ : VehicleData) ∈
      (generateChunk mathC 0 8).vehicles := by
    rw [mathC_chunk]
    with_unfolding_all decide
  have h := hclaim mathC tableC_abs_le (by intro q; norm_num [mathC]) 0 8 _ hmem 1
  have hcontra : (getRoadAt mathC
      (((vehicleStep mathC)^[1]) (⟨5, 180, "horizontal", 3 / 100, "surreal"⟩ : VehicleData)).x
      (((vehicleStep mathC)^[1]) (⟨5, 180, "horizontal", 3 / 100, "surreal"⟩ : VehicleData)).z).type ≠
      some "main" := by
    with_unfolding_all decide
  exact hcontra h.2

/-- C4 (amended): vehicle lane adherence does not hold for every spawned
vehicle — a tick can end on a street-class or off-road position, e.g.,
when the world-limit wrap resets a coordinate to -160 (see the
counterexample).  What holds: a vehicle currently heading "vertical" at
x = 0 (the central main avenue) ends every tick on-road with class
"main", for any sine/cosine bounded by 1 in absolute value. -/
theorem c4_amended (M : JsMath) (hs : ∀ q, |M.sin q| ≤ 1) (hc : ∀ q, |M.cos q| ≤ 1)
    (v : VehicleData) (hdir : v.dir = "vertical") (hx : v.x = 0) (n : ℕ) :
    (getRoadAt M (((vehicleStep M)^[n]) v).x (((vehicleStep M)^[n]) v).z).isRoad = true ∧
    (getRoadAt M (((vehicleStep M)^[n]) v).x (((vehicleStep M)^[n]) v).z).type = some "main" := by
  have hinv : ∀ m : ℕ,
      (((vehicleStep M)^[m]) v).dir = "vertical" ∧ (((vehicleStep M)^[m]) v).x = 0 := by
    intro m
    induction m with
    | zero => exact ⟨hdir, hx⟩
    | succ j ih =>
      rw [Function.iterate_succ_apply']
      exact vehicleStep_vertical_zero M hs hc _ ih.1 ih.2
  rw [(hinv n).2, getRoadAt_zero_main M hs hc]
  exact ⟨rfl, rfl⟩

theorem c4_amended_witness :
    (getRoadAt M0 (((vehicleStep M0)^[3]) ⟨0, 7, "vertical", 1 / 20, "wheel"⟩).x
        (((vehicleStep M0)^[3]) ⟨0, 7, "vertical", 1 / 20, "wheel"⟩).z).isRoad = true ∧
    (getRoadAt M0 (((vehicleStep M0)^[3]) ⟨0, 7, "vertical", 1 / 20, "wheel"⟩).x
        (((vehicleStep M0)^[3]) ⟨0, 7, "vertical", 1 / 20, "wheel"⟩).z).type = some "main" :=
  c4_amended M0 (by intro q; norm_num [M0]) (by intro q; norm_num [M0])
    ⟨0, 7, "vertical", 1 / 20, "wheel"⟩ rfl rfl 3

/-- C5: Main-road precedence — wherever both the main-spacing test and
the street-spacing test pass (on either axis), `getRoadAt` reports class
"main" and never "street". -/
theorem c5_main_precedence (M : JsMath) (x z : ℚ)
    (hmain : |jsMod (x + roadWarp M x z) MAIN_AVENUE_SPACING| < ROAD_WIDTH_MAIN ∨
             |jsMod (z + roadWarp M z x) MAIN_AVENUE_SPACING| < ROAD_WIDTH_MAIN)
    (hstreet : |jsMod (x + roadWarp M x z) STREET_SPACING| < ROAD_WIDTH_STREET ∨
               |jsMod (z + roadWarp M z x) STREET_SPACING| < ROAD_WIDTH_STREET) :
    (getRoadAt M x z).type = some "main" ∧ (getRoadAt M x z).type ≠ some "street" := by
  have h := getRoadAt_type_of_main M x z hmain
  rw [h]
  exact ⟨rfl, by simp⟩

theorem c5_witness :
    (getRoadAt M0 0 0).type = some "main" ∧ (getRoadAt M0 0 0).type ≠ some "street" :=
  c5_main_precedence M0 0 0 (Or.inl (by with_unfolding_all decide))
    (Or.inl (by with_unfolding_all decide))

/-- C6: Eviction and fresh regeneration — a key outside the Chebyshev
view radius of the new center key is absent from the cache after
`updateChunks`, and a later `getChunk` request for it invokes
`generateChunk` again, yielding the freshly generated chunk (any mutated
vehicle state stored in the old cache entry is not reused). -/
theorem c6_eviction (M : JsMath) (c : Cache) (px pz : ℚ) (k : ℤ × ℤ)
    (hfar : ¬(|k.1 - ⌊px / CHUNK_SIZE⌋| ≤ VIEW_RADIUS ∧
              |k.2 - ⌊pz / CHUNK_SIZE⌋| ≤ VIEW_RADIUS)) :
    cacheHas (updateChunks M c px pz) k = false ∧
      (getChunk M (updateChunks M c px pz) k).2 = generateChunk M k.1 k.2 := by
  have habs : cacheHas (updateChunks M c px pz) k = false := by
    rw [← Bool.not_eq_true, updateChunks_has_iff]
    exact hfar
  exact ⟨habs, getChunk_snd_of_absent M _ k habs⟩

/-- A cache entry whose vehicle has been mutated away from any spawn
state, used to show eviction does not resurrect mutable state. -/
def staleChunk : ChunkData := ⟨5, 5, [], [], [], [⟨999, 999, "horizontal", 1, "hover"⟩]⟩

theorem c6_witness :
    cacheHas (updateChunks M0 [((5, 5), staleChunk)] 0 0) (5, 5) = false ∧
      (getChunk M0 (updateChunks M0 [((5, 5), staleChunk)] 0 0) (5, 5)).2 =
        generateChunk M0 5 5 :=
  c6_eviction M0 [((5, 5), staleChunk)] 0 0 (5, 5) (by with_unfolding_all decide)

set_option maxHeartbeats 2000000 in
set_option maxRecDepth 8000 in
/-- C7 counterexample: it is not the case that every stored NPC spawn is
off-road.  Under the bounded sine model `mathA`, chunk (0, 0) draws an
NPC at (0, 0) — on the central main avenue — and the +3 sidewalk nudge
moves it to (3, 0), which is still within the 3.2 half-width of the
avenue, so `getRoadAt` still reports a road there. -/
theorem c7_counterexample :
    ¬ (∀ (M : JsMath), (∀ q, |M.sin q| ≤ 1) → (∀ q, |M.cos q| ≤ 1) →
        ∀ (cx cz : ℤ) (npc : NpcData), npc ∈ (generateChunk M cx cz).npcs →
          (getRoadAt M npc.pos.1 npc.pos.2).isRoad = false) := by
  intro hclaim
  have hmem : (⟨(3, 0), "dreamer"⟩ : NpcData) ∈ (generateChunk mathA 0 0).npcs := by
    rw [mathA_chunk]
    with_unfolding_all decide
  have h := hclaim mathA tableA_abs_le (by intro q; norm_num [mathA]) 0 0 _ hmem
  have hcontra : (getRoadAt mathA 3 0).isRoad ≠ false := by
    with_unfolding_all decide
  exact hcontra h

/-- C7 (amended): every stored NPC position is the drawn position passed
through the sidewalk adjustment `npcAdjust` — if the draw is on a road,
the stored position is the draw nudged by +3 perpendicular to the
reported road axis; this nudge does not guarantee the stored position is
off-road (the nudge 3 is smaller than the main half-width 3.2, see the
counterexample). -/
theorem c7_amended (M : JsMath) (cx cz : ℤ) (npc : NpcData)
    (h : npc ∈ (generateChunk M cx cz).npcs) :
    ∃ px pz, npc.pos = npcAdjust M px pz := by
  obtain ⟨n, s, he⟩ := generateChunk_npcs_ex M cx cz
  rw [he] at h
  exact npcLoop_adjust M cx cz n s npc h

set_option maxHeartbeats 2000000 in
set_option maxRecDepth 8000 in
theorem c7_amended_witness :
    ((⟨(3, 0), "dreamer"⟩ : NpcData) ∈ (generateChunk mathA 0 0).npcs) ∧
      ∃ px pz, (⟨(3, 0), "dreamer"⟩ : NpcData).pos = npcAdjust mathA px pz := by
  have hmem : (⟨(3, 0), "dreamer"⟩ : NpcData) ∈ (generateChunk mathA 0 0).npcs := by
    rw [mathA_chunk]
    with_unfolding_all decide
  exact ⟨hmem, c7_amended mathA 0 0 _ hmem⟩

/-- C8: Vehicles only spawn on main roads — every vehicle returned by
`generateChunk(cx, cz)` sits at a position `getRoadAt` classifies as an
on-road main-class point; every other candidate (street-class or
off-road) is discarded by the spawn loop. -/
theorem c8_vehicles_on_main (M : JsMath) (cx cz : ℤ) (v : VehicleData)
    (h : v ∈ (generateChunk M cx cz).vehicles) :
    (getRoadAt M v.x v.z).isRoad = true ∧ (getRoadAt M v.x v.z).type = some "main" := by
  obtain ⟨n, s, he⟩ := generateChunk_vehicles_ex M cx cz
  rw [he] at h
  obtain ⟨h1, h2, h3⟩ := vehLoop_main M cx cz n s v h
  exact ⟨h1, h2⟩

set_option maxHeartbeats 2000000 in
set_option maxRecDepth 8000 in
theorem c8_witness :
    ((⟨0, -10, "vertical", 3 / 100, "surreal"⟩ : VehicleData) ∈
        (generateChunk mathA 0 0).vehicles) ∧
      (getRoadAt mathA 0 (-10)).isRoad = true ∧
      (getRoadAt mathA 0 (-10)).type = some "main" := by
  have hmem : (⟨0, -10, "vertical", 3 / 100, "surreal"⟩ : VehicleData) ∈
      (generateChunk mathA 0 0).vehicles := by
    rw [mathA_chunk]
    with_unfolding_all decide
  have h := c8_vehicles_on_main mathA 0 0 _ hmem
  dsimp only at h
  exact ⟨hmem, h⟩

/-- C9: Generation always terminates and never fails — `generateChunk`
is a total function returning a chunk for its key; the building
rejection-sampling loop performs at most 200 attempts (the embedding
runs it on fuel 200), so the building list is bounded by the requested
count, which is at most 17 (10 + ⌊rand·8⌋), and may be shorter. -/
theorem c9_termination (M : JsMath) (cx cz : ℤ) :
    (generateChunk M cx cz).cx = cx ∧ (generateChunk M cx cz).cz = cz ∧
      (generateChunk M cx cz).buildings.length ≤ 17 := by
  refine ⟨rfl, rfl, ?_⟩
  obtain ⟨bc, s, hle, he⟩ := generateChunk_buildings_ex M cx cz
  rw [he]
  exact le_trans (buildLoop_length_le M cx cz bc 200 s [] (by simp)) hle

/-- C10: Spatial containment — every PRNG output lies in [0, 1), and
consequently every road sample and every building position of
`generateChunk(cx, cz)` lies inside the chunk's square footprint
[cx·20 - 10, cx·20 + 10] × [cz·20 - 10, cz·20 + 10]. -/
theorem c10_containment (M : JsMath) (cx cz : ℤ) :
    (∀ s : ℚ, 0 ≤ (nextRand M s).1 ∧ (nextRand M s).1 < 1) ∧
    (∀ r ∈ (generateChunk M cx cz).roads,
        (cx : ℚ) * CHUNK_SIZE - CHUNK_SIZE / 2 ≤ r.x ∧
        r.x ≤ (cx : ℚ) * CHUNK_SIZE + CHUNK_SIZE / 2 ∧
        (cz : ℚ) * CHUNK_SIZE - CHUNK_SIZE / 2 ≤ r.z ∧
        r.z ≤ (cz : ℚ) * CHUNK_SIZE + CHUNK_SIZE / 2) ∧
    (∀ b ∈ (generateChunk M cx cz).buildings,
        (cx : ℚ) * CHUNK_SIZE - CHUNK_SIZE / 2 ≤ b.x ∧
        b.x ≤ (cx : ℚ) * CHUNK_SIZE + CHUNK_SIZE / 2 ∧
        (cz : ℚ) * CHUNK_SIZE - CHUNK_SIZE / 2 ≤ b.z ∧
        b.z ≤ (cz : ℚ) * CHUNK_SIZE + CHUNK_SIZE / 2) := by
  refine ⟨nextRand_range M, ?_, ?_⟩
  · intro r hr
    rw [generateChunk_roads] at hr
    unfold roadSamples at hr
    rw [List.mem_flatMap] at hr
    obtain ⟨x0, hx0, hr2⟩ := hr
    rw [List.mem_filterMap] at hr2
    obtain ⟨z0, hz0, hr3⟩ := hr2
    have hxb := gridOffsets_bound x0 hx0
    have hzb := gridOffsets_bound z0 hz0
    dsimp only at hr3
    split at hr3
    · rw [Option.some.injEq] at hr3
      subst hr3
      refine ⟨?_, ?_, ?_, ?_⟩ <;>
        · dsimp only
          simp only [CHUNK_SIZE] at *
          linarith [hxb.1, hxb.2, hzb.1, hzb.2]
    · cases hr3
  · obtain ⟨bc, s, hle, he⟩ := generateChunk_buildings_ex M cx cz
    rw [he]
    exact buildLoop_in_chunk M cx cz bc 200 s [] (by intro b h; cases h)

set_option maxHeartbeats 2000000 in
set_option maxRecDepth 8000 in
theorem c10_witness :
    ((⟨-10, -10, 2, 2, 3⟩ : BuildingData) ∈ (generateChunk mathA 0 0).buildings) ∧
      (((0 : ℤ) : ℚ) * CHUNK_SIZE - CHUNK_SIZE / 2 ≤ (-10 : ℚ) ∧
        (-10 : ℚ) ≤ ((0 : ℤ) : ℚ) * CHUNK_SIZE + CHUNK_SIZE / 2 ∧
        ((0 : ℤ) : ℚ) * CHUNK_SIZE - CHUNK_SIZE / 2 ≤ (-10 : ℚ) ∧
        (-10 : ℚ) ≤ ((0 : ℤ) : ℚ) * CHUNK_SIZE + CHUNK_SIZE / 2) := by
  have hmem : (⟨-10, -10, 2, 2, 3⟩ : BuildingData) ∈ (generateChunk mathA 0 0).buildings := by
    rw [mathA_chunk]
    with_unfolding_all decide
  exact ⟨hmem, (c10_containment mathA 0 0).2.2 ⟨-10, -10, 2, 2, 3⟩ hmem⟩
